import Mathlib

/-!
Shallow embedding of the WiFi connectivity manager of `src/WiFiManager.cpp`
(the translation unit the specification's claims cite; the header in the
repository describes an older interface and is not the implementation).

Conventions of the embedding:
* the mutable static fields of `WiFiManager` become an explicit record
  (`WMState`) threaded through the operations;
* the radio driver (`WiFi.*`), whose answers the code only observes, is an
  explicit environment record (`RadioEnv`): scan results, connect outcome,
  reported RSSI, soft-AP start results;
* `millis()` is an explicit `now : Nat` parameter, held fixed within one
  call (the code polls wall-clock timestamps once per tick);
* `uint8_t priority` is a `Nat` (no arithmetic in the code can overflow it:
  the only computation is `priority * 100 + rssi` done in `int`), `int rssi`
  is an `Int`, `unsigned long` timestamps are `Nat`;
* `std::sort` with a strict comparator is modelled by a deterministic
  insertion sort; the properties proved below (lengths, membership,
  permutation, pairwise sortedness) are exactly the ones `std::sort`
  guarantees.
-/

namespace WRover

/-- `WiFiManagerState` enum: `WIFI_STATE_DISCONNECTED .. WIFI_STATE_AP_STA_MODE`. -/
inductive WiFiManagerState
  | disconnected
  | connecting
  | connected
  | apMode
  | apStaMode
deriving DecidableEq, Repr

/-- The radio mode set by `WiFi.mode(...)`: `WIFI_STA`, `WIFI_AP`, `WIFI_AP_STA`. -/
inductive WifiMode
  | off
  | sta
  | ap
  | apSta
deriving DecidableEq, Repr

/-- `wl_status_t` as far as `checkConnectionStatus` inspects it
(`WL_IDLE_STATUS`, `WL_CONNECTED`, `WL_DISCONNECTED`, anything else). -/
inductive WlStatus
  | idle
  | connected
  | disconnected
  | other
deriving DecidableEq, Repr

/-- Outcome of the blocking wait in `connectToWiFi`: link comes up
(`WL_CONNECTED`), the 20 s timeout fires inside the wait loop, or the loop
ends after 40 polls without a link. The two failure exits behave
differently in the source (only the second one restarts the AP). -/
inductive ConnectOutcome
  | success
  | timeout
  | failed
deriving DecidableEq, Repr

/-- `struct WiFiNetwork`. The `.cpp` uses it both for saved entries and for
scan results; the `saved`/`encrypted` flags are the ones `performScan`
assigns. Defaults mirror the default constructor in `SystemConfig.h`. -/
structure WiFiNetwork where
  ssid : String
  password : String := ""
  priority : Nat := 5
  autoConnect : Bool := true
  lastConnected : Nat := 0
  connectionAttempts : Nat := 0
  rssi : Int := 0
  saved : Bool := false
  encrypted : Bool := false
deriving DecidableEq, Repr

/-- One raw result row of `WiFi.scanNetworks` as read back by `performScan`
(`WiFi.SSID(i)`, `WiFi.RSSI(i)`, `WiFi.encryptionType(i) != WIFI_AUTH_OPEN`). -/
structure RawScanEntry where
  ssid : String
  rssi : Int
  encrypted : Bool
deriving DecidableEq, Repr

/-- `#define MAX_WIFI_NETWORKS 5` (`config.h` / `SystemConfig.h`). -/
def MAX_WIFI_NETWORKS : Nat := 5

/-- `#define MAX_RECONNECT_ATTEMPTS 5`. -/
def MAX_RECONNECT_ATTEMPTS : Nat := 5

/-- `#define RECONNECT_INTERVAL 30000`. -/
def RECONNECT_INTERVAL : Nat := 30000

/-- `#define WIFI_SCAN_INTERVAL 60000`. -/
def WIFI_SCAN_INTERVAL : Nat := 60000

/-! ## List helpers shared by the operations

These mirror the STL calls the source makes: the range-`for` with early
`return` that updates the first entry with a given name, `std::min_element`
followed by `erase` (erases the first entry attaining the minimal
priority), and `std::sort` by a strict descending comparator. -/

/-- Update the first entry whose `ssid` matches (the range-`for` loops in
`addNetwork` and `connectToWiFi` stop at the first match). -/
def updateFirstBy (ssid : String) (f : WiFiNetwork → WiFiNetwork) :
    List WiFiNetwork → List WiFiNetwork
  | [] => []
  | n :: rest =>
    if n.ssid = ssid then f n :: rest else n :: updateFirstBy ssid f rest

/-- `std::min_element` over priorities followed by `erase`: removes the
first entry attaining the minimal `priority` (the comparator is
`a.priority < b.priority`, so ties keep the earlier entry as minimum). -/
def eraseLowestPriority : List WiFiNetwork → List WiFiNetwork
  | [] => []
  | x :: xs =>
    if xs.all fun y => decide (x.priority ≤ y.priority) then xs
    else x :: eraseLowestPriority xs

/-- Insert into a list kept in descending `key` order (one step of the
insertion-sort model of `std::sort` with comparator `key a > key b`). -/
def insertDescBy (key : WiFiNetwork → Int) (n : WiFiNetwork) :
    List WiFiNetwork → List WiFiNetwork
  | [] => [n]
  | x :: xs =>
    if key n ≤ key x then x :: insertDescBy key n xs else n :: x :: xs

/-- Sort descending by `key`: deterministic model of `std::sort` with the
strict comparator `key a > key b`. The source leaves the relative order of
tied keys unspecified; the model fixes one such order, and no theorem
below depends on which. -/
def sortDescBy (key : WiFiNetwork → Int) (l : List WiFiNetwork) :
    List WiFiNetwork :=
  l.foldr (insertDescBy key) []

/-! ## Network store operations (`addNetwork`, `removeNetwork`) -/

/-- The fresh entry built by `addNetwork` (lines 162-169). -/
def mkNewNetwork (ssid password : String) (priority : Nat)
    (autoConnect : Bool) : WiFiNetwork :=
  { ssid := ssid, password := password, priority := priority,
    autoConnect := autoConnect, lastConnected := 0,
    connectionAttempts := 0, rssi := 0 }

/-- `WiFiManager::addNetwork` (lines 132-188): update in place when the
name exists; otherwise evict the first lowest-priority entry when at
capacity, append the new entry and re-sort by descending priority.
Returns the saved-network list paired with the C++ return value. -/
def addNetwork (store : List WiFiNetwork) (ssid password : String)
    (priority : Nat) (autoConnect : Bool) : List WiFiNetwork × Bool :=
  if store.any fun net => net.ssid == ssid then
    (updateFirstBy ssid
      (fun net => { net with password := password, priority := priority,
                             autoConnect := autoConnect }) store, true)
  else
    let store1 :=
      if MAX_WIFI_NETWORKS ≤ store.length then eraseLowestPriority store
      else store
    (sortDescBy (fun n => (n.priority : Int))
      (store1 ++ [mkNewNetwork ssid password priority autoConnect]), true)

/-- `WiFiManager::removeNetwork` (lines 190-206): `std::remove_if` +
conditional `erase`. `remove_if` returns `end()` exactly when nothing
matched, so the function erases every matching entry and returns `true`
iff at least one entry had the given name. -/
def removeNetwork (store : List WiFiNetwork) (ssid : String) :
    List WiFiNetwork × Bool :=
  if store.any fun net => net.ssid == ssid then
    (store.filter fun net => !(net.ssid == ssid), true)
  else
    (store, false)

/-! ## Scanner (`scanNetworks`, `performScan`) -/

/-- The per-row work of `performScan` (lines 388-405): copy ssid/rssi/
encryption from the radio, then cross-reference the saved list — the inner
loop stops at the first saved entry with the same name. All other fields
keep the default-constructor values. -/
def markSaved (savedNetworks : List WiFiNetwork) (e : RawScanEntry) :
    WiFiNetwork :=
  let base : WiFiNetwork :=
    { ssid := e.ssid, rssi := e.rssi, encrypted := e.encrypted,
      saved := false, autoConnect := false }
  match savedNetworks.find? fun s => s.ssid == e.ssid with
  | some s => { base with saved := true, autoConnect := s.autoConnect }
  | none => base

/-- Pure core of `WiFiManager::performScan` (lines 359-426): the scanned
list is cleared and rebuilt from the raw radio rows (early return leaves it
empty when the radio reports zero networks), then sorted by descending
RSSI. The transient disconnect/reconnect around the radio scan restores
the station link and is invisible in the resulting state. -/
def performScan (savedNetworks : List WiFiNetwork)
    (raw : List RawScanEntry) : List WiFiNetwork :=
  if raw.length = 0 then []
  else sortDescBy (fun n => n.rssi) (raw.map (markSaved savedNetworks))

/-! ## Selector (`connectToBestNetwork`, lines 227-246) -/

/-- The score of line 237: `priority * 100 + RSSI`. -/
def networkScore (priority : Nat) (rssi : Int) : Int :=
  (priority : Int) * 100 + rssi

/-- The inner loop of the selector: the first scan row with the saved
entry's name (the loop `break`s at the first match). -/
def findScanned (scannedNetworks : List WiFiNetwork) (ssid : String) :
    Option WiFiNetwork :=
  scannedNetworks.find? fun net => net.ssid == ssid

/-- One iteration of the selection loop of `connectToBestNetwork`:
skip entries with `autoConnect == false`, look the name up in the scan
results, and replace the running best on a strictly greater score. -/
def selStep (scannedNetworks : List WiFiNetwork)
    (acc : Option WiFiNetwork × Int) (savedNet : WiFiNetwork) :
    Option WiFiNetwork × Int :=
  if savedNet.autoConnect then
    match findScanned scannedNetworks savedNet.ssid with
    | none => acc
    | some sc =>
      let s := networkScore savedNet.priority sc.rssi
      if acc.2 < s then (some savedNet, s) else acc
  else acc

/-- The selection part of `WiFiManager::connectToBestNetwork`
(lines 227-246): fold the loop over the saved list starting from
`bestNet = nullptr`, `bestScore = -1000`. -/
def selectBestNetwork (savedNetworks scannedNetworks : List WiFiNetwork) :
    Option WiFiNetwork :=
  (savedNetworks.foldl (selStep scannedNetworks) (none, -1000)).1

/-- `sv` participates in the selection with score `s`: it is
auto-connect-eligible and its name appears in the scan results (the first
matching row supplies the RSSI, exactly as the `break` does). -/
def Cand (scannedNetworks : List WiFiNetwork) (sv : WiFiNetwork)
    (s : Int) : Prop :=
  sv.autoConnect = true ∧
  ∃ sc, findScanned scannedNetworks sv.ssid = some sc ∧
    s = networkScore sv.priority sc.rssi

/-! ## Connection state machine -/

/-- The mutable static fields of `WiFiManager` that the cited code reads or
writes, plus the radio-side facts it manipulates (`wifiMode` for
`WiFi.mode`, `stationConnected` for the station link, `apActive` for
`WiFi.softAP`, `dnsRunning` for the captive-portal DNS server).
`lastStatus` is the function-static variable of `checkConnectionStatus`;
`inited` is `_initialized`. -/
structure WMState where
  state : WiFiManagerState
  lastStatus : WlStatus
  apEnabled : Bool
  inited : Bool
  savedNetworks : List WiFiNetwork
  scannedNetworks : List WiFiNetwork
  reconnectAttempts : Nat
  lastConnectionAttempt : Nat
  lastScanTime : Nat
  connectionStartTime : Nat
  currentSSID : String
  currentRSSI : Int
  wifiMode : WifiMode
  stationConnected : Bool
  apActive : Bool
  dnsRunning : Bool
deriving DecidableEq, Repr

/-- What the radio driver answers during one call: the status event seen by
`checkConnectionStatus`, the RSSI `WiFi.RSSI()` reports, the rows a
blocking scan returns, the fate of a `WiFi.begin` attempt per ssid, and
whether `WiFi.softAPConfig` / `WiFi.softAP` succeed. -/
structure RadioEnv where
  status : WlStatus
  rssi : Int
  rawScan : List RawScanEntry
  connectOutcome : String → ConnectOutcome
  apConfigOk : Bool
  apStartOk : Bool

/-- `WiFiManager::startAPMode` (lines 265-307): drop the station link if
present, switch the radio to AP-only mode, apply the AP address
configuration and start broadcasting; on success record
`WIFI_STATE_AP_MODE`, force `_apEnabled = true` and start the DNS
redirector. Failure of either radio call returns `false` early. -/
def startAPMode (env : RadioEnv) (s : WMState) : WMState × Bool :=
  let s := { s with stationConnected := false, wifiMode := WifiMode.ap }
  if !env.apConfigOk then (s, false)
  else if !env.apStartOk then (s, false)
  else
    ({ s with apActive := true, state := WiFiManagerState.apMode,
              apEnabled := true, dnsRunning := true }, true)

/-- `WiFiManager::startAPSTA` (lines 321-346): switch to the combined
mode, start broadcasting, record `WIFI_STATE_AP_STA_MODE`. -/
def startAPSTA (env : RadioEnv) (s : WMState) : WMState × Bool :=
  let s := { s with wifiMode := WifiMode.apSta }
  if !env.apStartOk then (s, false)
  else
    ({ s with apActive := true, state := WiFiManagerState.apStaMode,
              apEnabled := true }, true)

/-- `WiFiManager::connectToWiFi` (lines 429-520) for the saved entry named
`ssid` (the C++ takes the entry by reference; the store key is its name).
Disconnect, pick the radio mode, start the attempt, record the timestamps
and `WIFI_STATE_CONNECTING`, then block until the outcome:
* success: record the link, update the entry (`lastConnected`,
  `connectionAttempts`, `rssi`), enter hybrid mode when the AP is enabled,
  reset the failure counter;
* timeout inside the wait loop: bump the entry's attempt count, return to
  `WIFI_STATE_DISCONNECTED` — the AP is NOT restarted on this exit;
* loop exhaustion without a link: as timeout, but the AP is restarted when
  enabled. -/
def connectToWiFi (env : RadioEnv) (now : Nat) (ssid : String)
    (s : WMState) : WMState × Bool :=
  let s := { s with stationConnected := false }
  let s := { s with wifiMode :=
    if s.apEnabled then WifiMode.apSta else WifiMode.sta }
  let s := { s with connectionStartTime := now,
                    lastConnectionAttempt := now,
                    state := WiFiManagerState.connecting }
  match env.connectOutcome ssid with
  | ConnectOutcome.success =>
    let s := { s with
      state := WiFiManagerState.connected,
      currentSSID := ssid,
      currentRSSI := env.rssi,
      stationConnected := true,
      savedNetworks := updateFirstBy ssid
        (fun n => { n with lastConnected := now,
                           connectionAttempts := n.connectionAttempts + 1,
                           rssi := env.rssi }) s.savedNetworks }
    let s := if s.apEnabled then (startAPSTA env s).1 else s
    ({ s with reconnectAttempts := 0 }, true)
  | ConnectOutcome.timeout =>
    let s := { s with
      savedNetworks := updateFirstBy ssid
        (fun n => { n with connectionAttempts := n.connectionAttempts + 1 })
        s.savedNetworks,
      state := WiFiManagerState.disconnected }
    (s, false)
  | ConnectOutcome.failed =>
    let s := { s with
      savedNetworks := updateFirstBy ssid
        (fun n => { n with connectionAttempts := n.connectionAttempts + 1 })
        s.savedNetworks,
      state := WiFiManagerState.disconnected }
    let s :=
      if s.apEnabled ∧ s.state ≠ WiFiManagerState.apMode
      then (startAPMode env s).1 else s
    (s, false)

/-- `WiFiManager::connectToNetwork` (lines 208-215): look the name up in
the saved list; connect to the first match, otherwise report failure with
no effect. -/
def connectToNetwork (env : RadioEnv) (now : Nat) (s : WMState)
    (ssid : String) : WMState × Bool :=
  match s.savedNetworks.find? fun net => net.ssid == ssid with
  | some _ => connectToWiFi env now ssid s
  | none => (s, false)

/-- `WiFiManager::scanNetworks` (lines 349-357): a blocking scan runs
`performScan` (which replaces the scanned list and stamps
`_lastScanTime`); a non-blocking scan only fires the asynchronous radio
scan and stamps `_lastScanTime` — nothing in this translation unit ever
collects asynchronous results, so the scanned list is untouched. -/
def scanNetworks (env : RadioEnv) (now : Nat) (blocking : Bool)
    (s : WMState) : WMState :=
  if blocking then
    { s with scannedNetworks := performScan s.savedNetworks env.rawScan,
             lastScanTime := now }
  else
    { s with lastScanTime := now }

/-- `WiFiManager::connectToBestNetwork` (lines 217-262): bail out on an
empty store, run a blocking scan, select the best candidate, connect to
it; report failure when nothing qualifies. -/
def connectToBestNetwork (env : RadioEnv) (now : Nat) (s : WMState) :
    WMState × Bool :=
  if s.savedNetworks.isEmpty then (s, false)
  else
    let s := scanNetworks env now true s
    match selectBestNetwork s.savedNetworks s.scannedNetworks with
    | some best => connectToWiFi env now best.ssid s
    | none => (s, false)

/-- `WiFiManager::disconnect` (lines 522-532): drop the station link, go
to `WIFI_STATE_DISCONNECTED`, clear the current-connection bookkeeping;
then, when the AP is enabled, immediately restart AP mode. -/
def disconnect (env : RadioEnv) (s : WMState) : WMState :=
  let s := { s with stationConnected := false,
                    state := WiFiManagerState.disconnected,
                    currentSSID := "", currentRSSI := 0 }
  if s.apEnabled then (startAPMode env s).1 else s

/-- `WiFiManager::checkConnectionStatus` (lines 535-572): react to a
changed radio status (link up / link lost, the latter falling back to AP
mode when enabled) and refresh the RSSI periodically while connected. -/
def checkConnectionStatus (env : RadioEnv) (now : Nat) (s : WMState) :
    WMState :=
  let s1 :=
    if env.status ≠ s.lastStatus then
      let t := { s with lastStatus := env.status }
      match env.status with
      | WlStatus.connected =>
        if t.state ≠ WiFiManagerState.connected then
          { t with state := WiFiManagerState.connected,
                   currentRSSI := env.rssi }
        else t
      | WlStatus.disconnected =>
        if t.state = WiFiManagerState.connected then
          let t := { t with state := WiFiManagerState.disconnected }
          if t.apEnabled ∧ t.state ≠ WiFiManagerState.apMode
          then (startAPMode env t).1 else t
        else t
      | _ => t
    else s
  if s1.state = WiFiManagerState.connected ∧ now % 5000 < 100 then
    { s1 with currentRSSI := env.rssi }
  else s1

/-- `WiFiManager::update` (lines 90-129), one tick: status check, then the
auto-reconnect block — below the attempt cap it bumps the counter and
tries the best network; at the cap the source runs
`if (!_apEnabled) startAPMode();`, which sits inside a branch that already
required `_apEnabled` to be true, so it never fires — then the periodic
non-blocking scan. The DNS/webserver pumping has no modelled state. -/
def update (env : RadioEnv) (now : Nat) (s : WMState) : WMState :=
  if s.inited = false then s
  else
    let s := checkConnectionStatus env now s
    let s :=
      if s.state = WiFiManagerState.disconnected ∧ s.apEnabled = true ∧
         0 < s.savedNetworks.length ∧
         RECONNECT_INTERVAL < now - s.lastConnectionAttempt then
        if s.reconnectAttempts < MAX_RECONNECT_ATTEMPTS then
          (connectToBestNetwork env now
            { s with reconnectAttempts := s.reconnectAttempts + 1 }).1
        else
          if s.apEnabled = false then (startAPMode env s).1 else s
      else s
    if WIFI_SCAN_INTERVAL < now - s.lastScanTime then
      scanNetworks env now false s
    else s

/-! ## Concrete fixtures used by witnesses and counterexamples -/

/-- A saved network, as in end-to-end scenario A of the spec. -/
def netHome : WiFiNetwork := { ssid := "Home", priority := 8 }

/-- Saved entry tied at the lowest priority, connected more recently. -/
def netA : WiFiNetwork := { ssid := "A", priority := 1, lastConnected := 100 }

/-- Saved entry tied at the lowest priority, connected longer ago. -/
def netB : WiFiNetwork := { ssid := "B", priority := 1, lastConnected := 50 }

def netC : WiFiNetwork := { ssid := "C", priority := 5 }

def netD : WiFiNetwork := { ssid := "D", priority := 5 }

def netE : WiFiNetwork := { ssid := "E", priority := 5 }

/-- A full (capacity-5) store whose two lowest-priority entries are tied,
the earlier one in stored order having the newer `lastConnected`. -/
def storeTie : List WiFiNetwork := [netC, netD, netE, netA, netB]

/-- Saved entry with priority 9 / observed at signal -80. -/
def netP9 : WiFiNetwork := { ssid := "Nine", priority := 9 }

/-- Saved entry with priority 5 / observed at signal -30. -/
def netP5 : WiFiNetwork := { ssid := "Five", priority := 5 }

def obsP9 : WiFiNetwork := { ssid := "Nine", rssi := -80 }

def obsP5 : WiFiNetwork := { ssid := "Five", rssi := -30 }

/-- Stale scan rows (deliberately not in descending-RSSI order). -/
def stale1 : WiFiNetwork := { ssid := "Stale1", rssi := -90 }

def stale2 : WiFiNetwork := { ssid := "Stale2", rssi := -10 }

/-- A radio environment where every AP bring-up succeeds, connect attempts
fail after the wait loop, and the status line reports `WL_DISCONNECTED`. -/
def envOk : RadioEnv :=
  { status := WlStatus.disconnected, rssi := -50, rawScan := [],
    connectOutcome := fun _ => ConnectOutcome.failed,
    apConfigOk := true, apStartOk := true }

/-- `envOk` with one fresh scan row available from the radio. -/
def envScan : RadioEnv :=
  { envOk with rawScan := [{ ssid := "X", rssi := -40, encrypted := true }] }

/-- A machine in the middle of a connect attempt, with the AP enabled. -/
def sConnecting : WMState :=
  { state := WiFiManagerState.connecting, lastStatus := WlStatus.idle,
    apEnabled := true, inited := true, savedNetworks := [netHome],
    scannedNetworks := [], reconnectAttempts := 0,
    lastConnectionAttempt := 0, lastScanTime := 0,
    connectionStartTime := 12345, currentSSID := "Home",
    currentRSSI := -60, wifiMode := WifiMode.apSta,
    stationConnected := false, apActive := false, dnsRunning := false }

/-- A disconnected machine whose reconnect budget is exhausted
(`_reconnectAttempts = MAX_RECONNECT_ATTEMPTS`), with the AP enabled but
not running, a saved network available, and the retry interval elapsed at
`now = 40000`. -/
def sMaxed : WMState :=
  { state := WiFiManagerState.disconnected,
    lastStatus := WlStatus.disconnected, apEnabled := true, inited := true,
    savedNetworks := [netHome], scannedNetworks := [],
    reconnectAttempts := 5, lastConnectionAttempt := 0,
    lastScanTime := 40000, connectionStartTime := 0, currentSSID := "",
    currentRSSI := 0, wifiMode := WifiMode.sta, stationConnected := false,
    apActive := false, dnsRunning := false }

/-- A machine holding a stale, unsorted scan list. -/
def sStale : WMState :=
  { sMaxed with scannedNetworks := [stale1, stale2] }

/-! ## Helper lemmas about the list operations -/

theorem length_updateFirstBy (ssid : String) (f : WiFiNetwork → WiFiNetwork) :
    ∀ l : List WiFiNetwork, (updateFirstBy ssid f l).length = l.length := by
  intro l
  induction l with
  | nil => rfl
  | cons n rest ih =>
    by_cases h : n.ssid = ssid <;> simp [updateFirstBy, h, ih]

theorem mem_updateFirstBy_of_ne (ssid : String)
    (f : WiFiNetwork → WiFiNetwork) {l : List WiFiNetwork}
    {e : WiFiNetwork} (he : e ∈ l) (hne : e.ssid ≠ ssid) :
    e ∈ updateFirstBy ssid f l := by
  induction l with
  | nil => cases he
  | cons n rest ih =>
    rcases List.mem_cons.mp he with rfl | hmem
    · have h : ¬ e.ssid = ssid := hne
      simp [updateFirstBy, h]
    · by_cases h : n.ssid = ssid
      · simp [updateFirstBy, h, hmem]
      · simp only [updateFirstBy, if_neg h, List.mem_cons]
        exact Or.inr (ih hmem)

theorem exists_updated_updateFirstBy (ssid : String)
    (f : WiFiNetwork → WiFiNetwork) :
    ∀ l : List WiFiNetwork, (∃ x ∈ l, x.ssid = ssid) →
      ∃ x ∈ l, x.ssid = ssid ∧ f x ∈ updateFirstBy ssid f l := by
  intro l
  induction l with
  | nil => rintro ⟨x, hx, _⟩; cases hx
  | cons n rest ih =>
    intro hex
    by_cases h : n.ssid = ssid
    · exact ⟨n, List.mem_cons_self n rest, h, by simp [updateFirstBy, h]⟩
    · have hex2 : ∃ x ∈ rest, x.ssid = ssid := by
        rcases hex with ⟨x, hx, hxs⟩
        rcases List.mem_cons.mp hx with rfl | hmem
        · exact absurd hxs h
        · exact ⟨x, hmem, hxs⟩
      rcases ih hex2 with ⟨x, hx, hxs, hmem⟩
      refine ⟨x, List.mem_cons_of_mem n hx, hxs, ?_⟩
      simp only [updateFirstBy, if_neg h, List.mem_cons]
      exact Or.inr hmem

theorem insertDescBy_perm (key : WiFiNetwork → Int) (n : WiFiNetwork) :
    ∀ l : List WiFiNetwork, (insertDescBy key n l).Perm (n :: l) := by
  intro l
  induction l with
  | nil => simp [insertDescBy]
  | cons x xs ih =>
    by_cases h : key n ≤ key x
    · simp only [insertDescBy, if_pos h]
      exact (ih.cons x).trans (List.Perm.swap n x xs)
    · simp [insertDescBy, h]

theorem sortDescBy_perm (key : WiFiNetwork → Int) :
    ∀ l : List WiFiNetwork, (sortDescBy key l).Perm l := by
  intro l
  induction l with
  | nil => simp [sortDescBy]
  | cons x xs ih =>
    have h1 : sortDescBy key (x :: xs) = insertDescBy key x (sortDescBy key xs) := rfl
    rw [h1]
    exact (insertDescBy_perm key x (sortDescBy key xs)).trans (ih.cons x)

theorem mem_insertDescBy (key : WiFiNetwork → Int) (n a : WiFiNetwork)
    (l : List WiFiNetwork) :
    a ∈ insertDescBy key n l ↔ a = n ∨ a ∈ l := by
  rw [(insertDescBy_perm key n l).mem_iff, List.mem_cons]

theorem pairwise_insertDescBy (key : WiFiNetwork → Int) (n : WiFiNetwork) :
    ∀ l : List WiFiNetwork,
      l.Pairwise (fun a b => key b ≤ key a) →
      (insertDescBy key n l).Pairwise (fun a b => key b ≤ key a) := by
  intro l
  induction l with
  | nil => intro _; simp [insertDescBy]
  | cons x xs ih =>
    intro hp
    rcases List.pairwise_cons.mp hp with ⟨hx, hxs⟩
    by_cases h : key n ≤ key x
    · simp only [insertDescBy, if_pos h]
      refine List.pairwise_cons.mpr ⟨?_, ih hxs⟩
      intro b hb
      rcases (mem_insertDescBy key n b xs).mp hb with rfl | hmem
      · exact h
      · exact hx b hmem
    · simp only [insertDescBy, if_neg h]
      refine List.pairwise_cons.mpr ⟨?_, hp⟩
      intro b hb
      rcases List.mem_cons.mp hb with rfl | hmem
      · exact le_of_lt (lt_of_not_le h)
      · exact le_trans (hx b hmem) (le_of_lt (lt_of_not_le h))

theorem pairwise_sortDescBy (key : WiFiNetwork → Int) :
    ∀ l : List WiFiNetwork,
      (sortDescBy key l).Pairwise (fun a b => key b ≤ key a) := by
  intro l
  induction l with
  | nil => simp [sortDescBy]
  | cons x xs ih => exact pairwise_insertDescBy key x (sortDescBy key xs) ih

/-- `std::min_element` + `erase` removes exactly one entry: the first one
in stored order attaining the minimal priority. -/
theorem eraseLowestPriority_spec :
    ∀ l : List WiFiNetwork, l ≠ [] →
      ∃ l1 e l2, l = l1 ++ e :: l2 ∧
        eraseLowestPriority l = l1 ++ l2 ∧
        (∀ y ∈ l, e.priority ≤ y.priority) ∧
        (∀ y ∈ l1, e.priority < y.priority) := by
  intro l
  induction l with
  | nil => intro h; exact absurd rfl h
  | cons x xs ih =>
    intro _
    by_cases hall : (xs.all fun y => decide (x.priority ≤ y.priority)) = true
    · refine ⟨[], x, xs, rfl, by simp [eraseLowestPriority, hall], ?_, by simp⟩
      intro y hy
      rcases List.mem_cons.mp hy with rfl | hmem
      · exact le_refl _
      · exact of_decide_eq_true (List.all_eq_true.mp hall y hmem)
    · have hex : ∃ y ∈ xs, y.priority < x.priority := by
        by_contra hno
        push_neg at hno
        exact hall (List.all_eq_true.mpr fun y hy =>
          decide_eq_true (hno y hy))
      rcases hex with ⟨y0, hy0, hy0lt⟩
      have hne : xs ≠ [] := by
        intro h; rw [h] at hy0; cases hy0
      rcases ih hne with ⟨l1, e, l2, hsplit, herase, hmin, hstrict⟩
      have hex : e.priority < x.priority :=
        lt_of_le_of_lt (hmin y0 hy0) hy0lt
      refine ⟨x :: l1, e, l2, by rw [hsplit]; rfl, ?_, ?_, ?_⟩
      · have h1 : eraseLowestPriority (x :: xs) =
            x :: eraseLowestPriority xs := by
          simp [eraseLowestPriority, hall]
        rw [h1, herase]; rfl
      · intro y hy
        rcases List.mem_cons.mp hy with rfl | hmem
        · exact le_of_lt hex
        · exact hmin y hmem
      · intro y hy
        rcases List.mem_cons.mp hy with rfl | hmem
        · exact hex
        · exact hstrict y hmem

/-! ## Helper lemmas about the selection fold -/

theorem selStep_shape (scanned : List WiFiNetwork)
    (acc : Option WiFiNetwork × Int) (x : WiFiNetwork) :
    selStep scanned acc x = acc ∨
      ∃ s, selStep scanned acc x = (some x, s) ∧ Cand scanned x s := by
  by_cases hauto : x.autoConnect = true
  · unfold selStep
    rw [if_pos hauto]
    cases hfind : findScanned scanned x.ssid with
    | none => exact Or.inl rfl
    | some sc =>
      by_cases hlt : acc.2 < networkScore x.priority sc.rssi
      · right
        exact ⟨networkScore x.priority sc.rssi, by simp [hlt],
               hauto, sc, hfind, rfl⟩
      · left; simp [hlt]
  · left
    unfold selStep
    rw [if_neg hauto]

theorem selStep_mono (scanned : List WiFiNetwork)
    (acc : Option WiFiNetwork × Int) (x : WiFiNetwork) :
    acc.2 ≤ (selStep scanned acc x).2 := by
  by_cases hauto : x.autoConnect = true
  · unfold selStep
    rw [if_pos hauto]
    cases hfind : findScanned scanned x.ssid with
    | none => exact le_refl _
    | some sc =>
      by_cases hlt : acc.2 < networkScore x.priority sc.rssi
      · simp [hlt]; exact le_of_lt hlt
      · simp [hlt]
  · unfold selStep
    rw [if_neg hauto]

theorem selFold_shape (scanned : List WiFiNetwork) :
    ∀ (l : List WiFiNetwork) (acc : Option WiFiNetwork × Int),
      l.foldl (selStep scanned) acc = acc ∨
      ∃ b s, l.foldl (selStep scanned) acc = (some b, s) ∧
        b ∈ l ∧ Cand scanned b s := by
  intro l
  induction l with
  | nil => intro acc; exact Or.inl rfl
  | cons x xs ih =>
    intro acc
    rw [List.foldl_cons]
    rcases selStep_shape scanned acc x with h | ⟨s, hs, hc⟩
    · rw [h]
      rcases ih acc with h2 | ⟨b, t, h2, hb, hc2⟩
      · exact Or.inl h2
      · exact Or.inr ⟨b, t, h2, List.mem_cons_of_mem x hb, hc2⟩
    · rw [hs]
      rcases ih (some x, s) with h2 | ⟨b, t, h2, hb, hc2⟩
      · exact Or.inr ⟨x, s, by rw [h2], List.mem_cons_self x xs, hc⟩
      · exact Or.inr ⟨b, t, h2, List.mem_cons_of_mem x hb, hc2⟩

theorem selFold_mono (scanned : List WiFiNetwork) :
    ∀ (l : List WiFiNetwork) (acc : Option WiFiNetwork × Int),
      acc.2 ≤ (l.foldl (selStep scanned) acc).2 := by
  intro l
  induction l with
  | nil => intro acc; exact le_refl _
  | cons x xs ih =>
    intro acc
    rw [List.foldl_cons]
    exact le_trans (selStep_mono scanned acc x) (ih (selStep scanned acc x))

theorem selFold_ub (scanned : List WiFiNetwork) :
    ∀ (l : List WiFiNetwork) (acc : Option WiFiNetwork × Int)
      (sv : WiFiNetwork) (s : Int), sv ∈ l → Cand scanned sv s →
      s ≤ (l.foldl (selStep scanned) acc).2 := by
  intro l
  induction l with
  | nil => intro acc sv s hmem; cases hmem
  | cons x xs ih =>
    intro acc sv s hmem hc
    rw [List.foldl_cons]
    rcases List.mem_cons.mp hmem with rfl | hmem2
    · refine le_trans ?_ (selFold_mono scanned xs (selStep scanned acc sv))
      rcases hc with ⟨hauto, sc, hfind, hscore⟩
      unfold selStep
      rw [if_pos hauto, hfind]
      by_cases hlt : acc.2 < networkScore sv.priority sc.rssi
      · simp [hlt, hscore]
      · simp only [hscore]
        simp [hlt]
        exact le_of_not_lt hlt
    · exact ih (selStep scanned acc x) sv s hmem2 hc

/-! ## Claim theorems -/

/-- C10: `removeNetwork(name)` returns `true` iff an entry with that name
is in the store; when it does, every entry with that name is removed
(and nothing else); when it returns `false` the store is unchanged. -/
theorem removeNetwork_spec (store : List WiFiNetwork) (ssid : String) :
    ((removeNetwork store ssid).2 = true ↔ ∃ e ∈ store, e.ssid = ssid) ∧
    ((removeNetwork store ssid).2 = true →
      (removeNetwork store ssid).1 =
        store.filter (fun net => !(net.ssid == ssid)) ∧
      ∀ e ∈ (removeNetwork store ssid).1, e.ssid ≠ ssid) ∧
    ((removeNetwork store ssid).2 = false →
      (removeNetwork store ssid).1 = store) := by
  by_cases hany : (store.any fun net => net.ssid == ssid) = true
  · refine ⟨?_, fun _ => ⟨by simp [removeNetwork, hany], ?_⟩, ?_⟩
    · constructor
      · intro _
        rcases List.any_eq_true.mp hany with ⟨x, hx, hbeq⟩
        exact ⟨x, hx, beq_iff_eq.mp hbeq⟩
      · intro _; simp [removeNetwork, hany]
    · intro e he
      have h1 : (removeNetwork store ssid).1 =
          store.filter (fun net => !(net.ssid == ssid)) := by
        simp [removeNetwork, hany]
      rw [h1] at he
      have h2 := List.of_mem_filter he
      intro heq
      rw [heq] at h2
      simp at h2
    · intro hfalse
      have : (removeNetwork store ssid).2 = true := by
        simp [removeNetwork, hany]
      rw [this] at hfalse
      cases hfalse
  · have hfalse : store.any (fun net => net.ssid == ssid) = false :=
      Bool.eq_false_iff.mpr hany
    refine ⟨?_, ?_, fun _ => by simp [removeNetwork, hfalse]⟩
    · constructor
      · intro h
        have h2 : (removeNetwork store ssid).2 = false := by
          simp [removeNetwork, hfalse]
        rw [h2] at h
        cases h
      · rintro ⟨e, he, heq⟩
        have hx : (store.any fun net => net.ssid == ssid) = true :=
          List.any_eq_true.mpr ⟨e, he, beq_iff_eq.mpr heq⟩
        exact absurd hx hany
    · intro h
      have h2 : (removeNetwork store ssid).2 = false := by
        simp [removeNetwork, hfalse]
      rw [h2] at h
      cases h

/-- C10 witness: removing `"Home"` from a store containing it succeeds,
empties the store, and no entry named `"Home"` survives. -/
theorem removeNetwork_spec_witness :
    (removeNetwork [netHome] "Home").2 = true ∧
    (removeNetwork [netHome] "Home").1 =
      [netHome].filter (fun net => !(net.ssid == "Home")) ∧
    ∀ e ∈ (removeNetwork [netHome] "Home").1, e.ssid ≠ "Home" := by
  have h := removeNetwork_spec [netHome] "Home"
  have ht : (removeNetwork [netHome] "Home").2 = true :=
    h.1.mpr ⟨netHome, by simp, by decide⟩
  exact ⟨ht, (h.2.1 ht).1, (h.2.1 ht).2⟩

/-- C5: a connect-now request for a name absent from the store returns
`false` and leaves the whole machine state — connection state and saved
store included — unchanged. -/
theorem connectToNetwork_unknown_fails (env : RadioEnv) (now : Nat)
    (s : WMState) (ssid : String)
    (h : ∀ e ∈ s.savedNetworks, e.ssid ≠ ssid) :
    connectToNetwork env now s ssid = (s, false) := by
  unfold connectToNetwork
  have hfind : (s.savedNetworks.find? fun net => net.ssid == ssid) = none :=
    List.find?_eq_none.mpr fun x hx hb => h x hx (beq_iff_eq.mp hb)
  rw [hfind]

/-- C5 witness: requesting `"Nope"` against a store holding only `"Home"`
fails and changes nothing. -/
theorem connectToNetwork_unknown_fails_witness :
    connectToNetwork envOk 0 sConnecting "Nope" = (sConnecting, false) :=
  connectToNetwork_unknown_fails envOk 0 sConnecting "Nope" (by decide)

/-- C7: `startAPMode` is idempotent — running it a second time against the
same radio environment reproduces exactly the state (and result) of the
first run, whatever the starting state. -/
theorem startAPMode_idempotent (env : RadioEnv) (s : WMState) :
    startAPMode env (startAPMode env s).1 = startAPMode env s := by
  cases hc : env.apConfigOk <;> cases hs : env.apStartOk <;>
    simp [startAPMode, hc, hs]

/-- C8: the selector is a pure function of the (store, scan-output)
snapshot: identical snapshots yield identical choices. -/
theorem selectBestNetwork_deterministic
    (saved1 saved2 scanned1 scanned2 : List WiFiNetwork)
    (hsaved : saved1 = saved2) (hscanned : scanned1 = scanned2) :
    selectBestNetwork saved1 scanned1 = selectBestNetwork saved2 scanned2 := by
  rw [hsaved, hscanned]

/-- C8 witness: two invocations on the same concrete snapshot agree. -/
theorem selectBestNetwork_deterministic_witness :
    selectBestNetwork [netP5, netP9] [obsP5, obsP9] =
      selectBestNetwork [netP5, netP9] [obsP5, obsP9] :=
  selectBestNetwork_deterministic [netP5, netP9] [netP5, netP9]
    [obsP5, obsP9] [obsP5, obsP9] rfl rfl

/-- C4 counterexample: with the AP enabled (and its bring-up succeeding),
an explicit disconnect issued mid-attempt lands the machine in
`WIFI_STATE_AP_MODE`, not in the `Offline`/disconnected state the claim
requires it to always end in. -/
theorem disconnect_counterexample :
    (disconnect envOk sConnecting).state = WiFiManagerState.apMode ∧
    (disconnect envOk sConnecting).state ≠ WiFiManagerState.disconnected := by
  exact ⟨rfl, by decide⟩

/-- C4 amended: `disconnect` unconditionally and immediately drops the
link, clears the current-connection bookkeeping and sets the state to
disconnected regardless of any in-progress attempt's timeout bookkeeping;
but when the AP is administratively enabled it then immediately starts AP
mode, so the call ends in `AccessPoint` state (it ends `Offline` exactly
when the AP is disabled or its bring-up fails). -/
theorem disconnect_immediate (env : RadioEnv) (s : WMState) :
    (disconnect env s).currentSSID = "" ∧
    (disconnect env s).currentRSSI = 0 ∧
    (disconnect env s).stationConnected = false ∧
    (s.apEnabled = false →
      (disconnect env s).state = WiFiManagerState.disconnected) ∧
    (s.apEnabled = true → env.apConfigOk = true → env.apStartOk = true →
      (disconnect env s).state = WiFiManagerState.apMode) ∧
    (s.apEnabled = true →
      (env.apConfigOk = false ∨ env.apStartOk = false) →
      (disconnect env s).state = WiFiManagerState.disconnected) := by
  cases hap : s.apEnabled <;> cases hc : env.apConfigOk <;>
    cases hs : env.apStartOk <;>
      simp [disconnect, startAPMode, hap, hc, hs]

/-- C4 witness: at the concrete mid-connect state with the AP enabled and
healthy, the amended description evaluates as stated. -/
theorem disconnect_immediate_witness :
    (disconnect envOk sConnecting).currentSSID = "" ∧
    (disconnect envOk sConnecting).state = WiFiManagerState.apMode := by
  have h := disconnect_immediate envOk sConnecting
  exact ⟨h.1, h.2.2.2.2.1 rfl rfl rfl⟩

/-- C1 (code bug): a disconnected machine with the AP enabled, a saved
network, the retry interval elapsed and the failure budget exhausted is
left exactly as it was by the next `update` tick — still disconnected,
neither `AccessPoint` nor `Hybrid`. The fallback the source comments as
"Max attempts reached, ensure AP is running" is guarded by
`if (!_apEnabled)` inside a branch that already required `_apEnabled`,
so it can never run. -/
theorem update_max_attempts_stays_disconnected :
    update envOk 40000 sMaxed = sMaxed ∧
    (update envOk 40000 sMaxed).state = WiFiManagerState.disconnected ∧
    (update envOk 40000 sMaxed).state ≠ WiFiManagerState.apMode ∧
    (update envOk 40000 sMaxed).state ≠ WiFiManagerState.apStaMode := by
  refine ⟨by decide, by decide, by decide, by decide⟩

/-- C6 counterexample: a non-blocking scan leaves the previously observed
list exactly as it was — here a stale list that is not the new radio
result and not in descending-signal order — refuting "after every scan
(blocking or non-blocking) the list is fully replaced and fully sorted". -/
theorem scanNetworks_nonblocking_counterexample :
    (scanNetworks envScan 1000 false sStale).scannedNetworks =
      sStale.scannedNetworks ∧
    (scanNetworks envScan 1000 false sStale).scannedNetworks ≠
      performScan sStale.savedNetworks envScan.rawScan ∧
    ¬ List.Pairwise (fun a b => b.rssi ≤ a.rssi)
      ((scanNetworks envScan 1000 false sStale).scannedNetworks) := by
  refine ⟨rfl, by decide, ?_⟩
  intro hp
  have h2 := (List.pairwise_cons.mp hp).1 stale2 (by decide)
  revert h2
  decide

/-- C6 amended: a blocking scan fully replaces the observed list with the
freshly marked radio rows, sorted in descending signal order; a
non-blocking call only fires the asynchronous radio scan and leaves the
observed list untouched (nothing in this translation unit collects
asynchronous results). -/
theorem scanNetworks_blocking_replaces_sorted (env : RadioEnv) (now : Nat)
    (s : WMState) :
    (scanNetworks env now true s).scannedNetworks =
      performScan s.savedNetworks env.rawScan ∧
    List.Pairwise (fun a b => b.rssi ≤ a.rssi)
      (performScan s.savedNetworks env.rawScan) ∧
    (performScan s.savedNetworks env.rawScan).Perm
      (env.rawScan.map (markSaved s.savedNetworks)) ∧
    (scanNetworks env now false s).scannedNetworks = s.scannedNetworks := by
  refine ⟨rfl, ?_, ?_, rfl⟩
  · unfold performScan
    by_cases h : env.rawScan.length = 0
    · simp [h]
    · simp only [if_neg h]
      exact pairwise_sortDescBy _ _
  · unfold performScan
    by_cases h : env.rawScan.length = 0
    · have h2 : env.rawScan = [] := List.length_eq_zero.mp h
      simp [h, h2]
    · simp only [if_neg h]
      exact sortDescBy_perm _ _

/-- C9: `addNetwork` never reports failure; when the name already exists
the store size is unchanged, an entry carrying the new password, priority
and auto-connect flag is present, and every entry with a different name
survives untouched (update-in-place). -/
theorem addNetwork_total (store : List WiFiNetwork) (ssid password : String)
    (priority : Nat) (autoConnect : Bool) :
    (addNetwork store ssid password priority autoConnect).2 = true ∧
    ((∃ x ∈ store, x.ssid = ssid) →
      (addNetwork store ssid password priority autoConnect).1.length =
        store.length ∧
      (∃ e ∈ (addNetwork store ssid password priority autoConnect).1,
        e.ssid = ssid ∧ e.password = password ∧ e.priority = priority ∧
        e.autoConnect = autoConnect) ∧
      (∀ e ∈ store, e.ssid ≠ ssid →
        e ∈ (addNetwork store ssid password priority autoConnect).1)) := by
  constructor
  · by_cases hany : (store.any fun net => net.ssid == ssid) = true
    · simp [addNetwork, hany]
    · have hfalse : (store.any fun net => net.ssid == ssid) = false :=
        Bool.eq_false_iff.mpr hany
      simp [addNetwork, hfalse]
  · rintro ⟨x, hx, hxs⟩
    have hany : (store.any fun net => net.ssid == ssid) = true :=
      List.any_eq_true.mpr ⟨x, hx, beq_iff_eq.mpr hxs⟩
    have h1 : (addNetwork store ssid password priority autoConnect).1 =
        updateFirstBy ssid
          (fun net => { net with password := password,
                                 priority := priority,
                                 autoConnect := autoConnect }) store := by
      simp [addNetwork, hany]
    refine ⟨by rw [h1]; exact length_updateFirstBy _ _ store, ?_, ?_⟩
    · rcases exists_updated_updateFirstBy ssid
        (fun net => { net with password := password, priority := priority,
                               autoConnect := autoConnect })
        store ⟨x, hx, hxs⟩ with ⟨y, hy, hys, hmem⟩
      refine ⟨{ y with password := password, priority := priority,
                       autoConnect := autoConnect },
              by rw [h1]; exact hmem, hys, rfl, rfl, rfl⟩
    · intro e he hne
      rw [h1]
      exact mem_updateFirstBy_of_ne ssid _ he hne

/-- C9 witness: re-adding `"Home"` with a new password and priority
succeeds, keeps the store size at 1, stores the new credentials, and no
differently-named entry is affected. -/
theorem addNetwork_total_witness :
    (addNetwork [netHome] "Home" "newpw" 2 false).2 = true ∧
    (addNetwork [netHome] "Home" "newpw" 2 false).1.length = 1 ∧
    ∃ e ∈ (addNetwork [netHome] "Home" "newpw" 2 false).1,
      e.ssid = "Home" ∧ e.password = "newpw" ∧ e.priority = 2 ∧
      e.autoConnect = false := by
  have h := addNetwork_total [netHome] "Home" "newpw" 2 false
  have hex : ∃ x ∈ [netHome], x.ssid = "Home" := ⟨netHome, by simp, by decide⟩
  exact ⟨h.1, (h.2 hex).1, (h.2 hex).2.1⟩

/-- C3: the selector considers exactly the saved, auto-connect-eligible
networks whose names appear in the scan results; it returns none iff no
such intersection exists (for realistic signal values, above the `-1000`
sentinel), and any returned network is such a candidate whose score
`priority * 100 + signal` is maximal among all candidates; in particular
priority 9 at signal -80 outranks priority 5 at signal -30. -/
theorem selectBestNetwork_spec (saved scanned : List WiFiNetwork)
    (hr : ∀ sc ∈ scanned, -999 ≤ sc.rssi) :
    (selectBestNetwork saved scanned = none ↔
      ∀ sv ∈ saved, sv.autoConnect = true →
        ∀ sc ∈ scanned, sc.ssid ≠ sv.ssid) ∧
    (∀ b, selectBestNetwork saved scanned = some b →
      b ∈ saved ∧ b.autoConnect = true ∧
      ∃ sc, findScanned scanned b.ssid = some sc ∧
        ∀ sv ∈ saved, sv.autoConnect = true →
          ∀ sc2, findScanned scanned sv.ssid = some sc2 →
            networkScore sv.priority sc2.rssi ≤
              networkScore b.priority sc.rssi) ∧
    networkScore 5 (-30) < networkScore 9 (-80) := by
  have hlow : ∀ (sv : WiFiNetwork) (s : Int), Cand scanned sv s →
      -999 ≤ s := by
    rintro sv s ⟨_, sc, hfind, rfl⟩
    have hmem : sc ∈ scanned := by
      unfold findScanned at hfind
      exact List.mem_of_find?_eq_some hfind
    have h1 := hr sc hmem
    have h2 : (0 : Int) ≤ (sv.priority : Int) * 100 := by positivity
    unfold networkScore
    linarith
  have key := selFold_shape scanned saved
    ((none : Option WiFiNetwork), (-1000 : Int))
  refine ⟨⟨?_, ?_⟩, ?_, by decide⟩
  · intro hnone sv hsv hauto sc hsc heq
    have hf : ∃ sc3, findScanned scanned sv.ssid = some sc3 := by
      cases hf0 : findScanned scanned sv.ssid with
      | some sc3 => exact ⟨sc3, rfl⟩
      | none =>
        unfold findScanned at hf0
        exact absurd (beq_iff_eq.mpr heq) (List.find?_eq_none.mp hf0 sc hsc)
    rcases hf with ⟨sc3, hf⟩
    have hcnd : Cand scanned sv (networkScore sv.priority sc3.rssi) :=
      ⟨hauto, sc3, hf, rfl⟩
    have hub := selFold_ub scanned saved
      ((none : Option WiFiNetwork), (-1000 : Int)) sv _ hsv hcnd
    rcases key with hk | ⟨b, s, hk, _, _⟩
    · rw [hk] at hub
      have hge := hlow sv _ hcnd
      simp only [] at hub
      omega
    · unfold selectBestNetwork at hnone
      rw [hk] at hnone
      simp at hnone
  · intro hno
    rcases key with hk | ⟨b, s, hk, hb, hcb⟩
    · unfold selectBestNetwork
      rw [hk]
    · exfalso
      rcases hcb with ⟨hauto, sc, hfind, _⟩
      have hscmem : sc ∈ scanned := by
        unfold findScanned at hfind
        exact List.mem_of_find?_eq_some hfind
      have hsceq : sc.ssid = b.ssid := by
        unfold findScanned at hfind
        have hps := List.find?_some hfind
        exact beq_iff_eq.mp hps
      exact hno b hb hauto sc hscmem hsceq
  · intro b hsome
    rcases key with hk | ⟨b0, s, hk, hb0, hcb⟩
    · unfold selectBestNetwork at hsome
      rw [hk] at hsome
      simp at hsome
    · unfold selectBestNetwork at hsome
      rw [hk] at hsome
      simp only [Option.some.injEq] at hsome
      subst hsome
      rcases hcb with ⟨hauto, sc, hfind, hseq⟩
      refine ⟨hb0, hauto, sc, hfind, ?_⟩
      intro sv hsv hsvauto sc2 hfind2
      have hcnd2 : Cand scanned sv (networkScore sv.priority sc2.rssi) :=
        ⟨hsvauto, sc2, hfind2, rfl⟩
      have hub := selFold_ub scanned saved
        ((none : Option WiFiNetwork), (-1000 : Int)) sv _ hsv hcnd2
      rw [hk] at hub
      simp only [] at hub
      rw [hseq] at hub
      exact hub

/-- C3 witness: the concrete two-network snapshot satisfies the signal
bound, the scoring inequality of the claim holds, and the selector's
emptiness criterion evaluates as stated. -/
theorem selectBestNetwork_spec_witness :
    networkScore 5 (-30) < networkScore 9 (-80) ∧
    (selectBestNetwork [netP5, netP9] [obsP5, obsP9] = none ↔
      ∀ sv ∈ [netP5, netP9], sv.autoConnect = true →
        ∀ sc ∈ [obsP5, obsP9], sc.ssid ≠ sv.ssid) := by
  have h := selectBestNetwork_spec [netP5, netP9] [obsP5, obsP9] (by decide)
  exact ⟨h.2.2, h.1⟩

/-- C2 counterexample: at capacity with two entries tied at the lowest
priority, the claim predicts the tie is broken by oldest
`lastConnectedAt` — entry `"B"` (lastConnected 50) should be evicted and
`"A"` (lastConnected 100) kept. The code runs `std::min_element` on
priority alone, evicting the first tied entry in stored order: `"A"` is
gone and `"B"` survives. -/
theorem addNetwork_tiebreak_counterexample :
    ((addNetwork storeTie "F" "pw" 3 true).1.any fun n => n.ssid == "B")
      = true ∧
    ((addNetwork storeTie "F" "pw" 3 true).1.any fun n => n.ssid == "A")
      = false := by
  exact ⟨by decide, by decide⟩

/-- C2 amended: after any add the store size stays within the capacity 5
(assuming it was within before); inserting a genuinely new name into a
full store evicts exactly one entry, namely the first entry in stored
order among those with the lowest priority (`lastConnectedAt` is not
consulted); the newly added entry is present afterwards. -/
theorem addNetwork_capacity (store : List WiFiNetwork)
    (ssid password : String) (priority : Nat) (autoConnect : Bool) :
    (store.length ≤ MAX_WIFI_NETWORKS →
      (addNetwork store ssid password priority autoConnect).1.length ≤
        MAX_WIFI_NETWORKS) ∧
    ((∀ e ∈ store, e.ssid ≠ ssid) →
      mkNewNetwork ssid password priority autoConnect ∈
        (addNetwork store ssid password priority autoConnect).1) ∧
    ((∀ e ∈ store, e.ssid ≠ ssid) → store.length = MAX_WIFI_NETWORKS →
      ∃ l1 ev l2, store = l1 ++ ev :: l2 ∧
        (∀ y ∈ store, ev.priority ≤ y.priority) ∧
        (∀ y ∈ l1, ev.priority < y.priority) ∧
        (addNetwork store ssid password priority autoConnect).1.Perm
          ((l1 ++ l2) ++
            [mkNewNetwork ssid password priority autoConnect])) := by
  by_cases hany : (store.any fun net => net.ssid == ssid) = true
  · have hres : (addNetwork store ssid password priority autoConnect).1 =
        updateFirstBy ssid
          (fun net => { net with password := password,
                                 priority := priority,
                                 autoConnect := autoConnect }) store := by
      simp [addNetwork, hany]
    refine ⟨?_, ?_, ?_⟩
    · intro hlen
      rw [hres, length_updateFirstBy]
      exact hlen
    · intro hno
      rcases List.any_eq_true.mp hany with ⟨x, hx, hbeq⟩
      exact absurd (beq_iff_eq.mp hbeq) (hno x hx)
    · intro hno _
      rcases List.any_eq_true.mp hany with ⟨x, hx, hbeq⟩
      exact absurd (beq_iff_eq.mp hbeq) (hno x hx)
  · have hfalse : (store.any fun net => net.ssid == ssid) = false :=
      Bool.eq_false_iff.mpr hany
    have hres : (addNetwork store ssid password priority autoConnect).1 =
        sortDescBy (fun n => (n.priority : Int))
          ((if MAX_WIFI_NETWORKS ≤ store.length
            then eraseLowestPriority store else store) ++
           [mkNewNetwork ssid password priority autoConnect]) := by
      simp [addNetwork, hfalse]
    refine ⟨?_, ?_, ?_⟩
    · intro hlen
      rw [hres, (sortDescBy_perm _ _).length_eq, List.length_append]
      by_cases hcap : MAX_WIFI_NETWORKS ≤ store.length
      · have h5 : store.length = MAX_WIFI_NETWORKS := le_antisymm hlen hcap
        have hne : store ≠ [] := by
          intro h
          rw [h] at h5
          exact absurd h5 (by decide)
        rcases eraseLowestPriority_spec store hne with
          ⟨l1, ev, l2, hsplit, herase, _, _⟩
        have hLsplit : store.length = l1.length + (l2.length + 1) := by
          rw [hsplit, List.length_append, List.length_cons]
        rw [if_pos hcap, herase, List.length_append]
        unfold MAX_WIFI_NETWORKS at h5 ⊢
        simp only [List.length_singleton]
        omega
      · rw [if_neg hcap]
        have hlt : store.length < MAX_WIFI_NETWORKS := lt_of_not_le hcap
        simp only [List.length_singleton]
        omega
    · intro _
      rw [hres, (sortDescBy_perm _ _).mem_iff]
      exact List.mem_append_right _ (List.mem_singleton_self _)
    · intro _ hlen5
      have hcap : MAX_WIFI_NETWORKS ≤ store.length := le_of_eq hlen5.symm
      have hne : store ≠ [] := by
        intro h
        rw [h] at hlen5
        exact absurd hlen5 (by decide)
      rcases eraseLowestPriority_spec store hne with
        ⟨l1, ev, l2, hsplit, herase, hmin, hstrict⟩
      refine ⟨l1, ev, l2, hsplit, hmin, hstrict, ?_⟩
      rw [hres, if_pos hcap, herase]
      exact sortDescBy_perm _ _

/-- C2 witness: adding a 6th network (priority 3) to the concrete full
store keeps the size within 5, the new entry is present, and the eviction
decomposition exists. -/
theorem addNetwork_capacity_witness :
    (addNetwork storeTie "F" "pw" 3 true).1.length ≤ MAX_WIFI_NETWORKS ∧
    mkNewNetwork "F" "pw" 3 true ∈ (addNetwork storeTie "F" "pw" 3 true).1 ∧
    ∃ l1 ev l2, storeTie = l1 ++ ev :: l2 ∧
      (∀ y ∈ storeTie, ev.priority ≤ y.priority) ∧
      (∀ y ∈ l1, ev.priority < y.priority) ∧
      (addNetwork storeTie "F" "pw" 3 true).1.Perm
        ((l1 ++ l2) ++ [mkNewNetwork "F" "pw" 3 true]) := by
  have h := addNetwork_capacity storeTie "F" "pw" 3 true
  exact ⟨h.1 (by decide), h.2.1 (by decide), h.2.2 (by decide) (by decide)⟩

end WRover
